import Mathlib

/-!
Verification of the SSD1351 OLED display driver (ssd1351.py).

The driver is shallowly embedded: transport traffic (the SPI writes that
`_command`, `_data` and `_send_data` perform) is modelled as a trace of
events; a command byte and a single parameter byte are recorded as `Int`
so that expressions such as `x + w - 1` keep their exact Python value,
while streamed buffers (bytearrays) are lists of `Nat`.  Python integers
are arbitrary precision, so `Nat`/`Int` model them directly.  A text
string is modelled as the list of its character codes (Python `ord`).
Driver object attributes live in the `Display` structure; methods thread
it explicitly.  Python exceptions are modelled with `PyErr`.
-/

/-- SSD1351 column-range command opcode (ssd1351.py line 58). -/
def CMD_SETCOLUMN : Int := 0x15

/-- SSD1351 row-range command opcode (line 59). -/
def CMD_SETROW : Int := 0x75

/-- SSD1351 write-RAM command opcode (line 60). -/
def CMD_WRITERAM : Int := 0x5C

/-- SSD1351 remap command opcode (line 62). -/
def CMD_SETREMAP : Int := 0xA0

/-- SSD1351 start-line command opcode (line 63). -/
def CMD_STARTLINE : Int := 0xA1

/-- SSD1351 display-offset command opcode (line 64). -/
def CMD_DISPLAYOFFSET : Int := 0xA2

/-- SSD1351 normal-display command opcode (line 67). -/
def CMD_NORMALDISPLAY : Int := 0xA6

/-- SSD1351 display-off command opcode (line 70). -/
def CMD_DISPLAYOFF : Int := 0xAE

/-- SSD1351 display-on command opcode (line 71). -/
def CMD_DISPLAYON : Int := 0xAF

/-- SSD1351 precharge command opcode (line 74). -/
def CMD_PRECHARGE : Int := 0xB1

/-- SSD1351 clock-divider command opcode (line 76). -/
def CMD_CLOCKDIV : Int := 0xB3

/-- SSD1351 segment-low-voltage command opcode (line 77). -/
def CMD_SETVSL : Int := 0xB4

/-- SSD1351 second-precharge command opcode (line 79). -/
def CMD_PRECHARGE2 : Int := 0xB6

/-- SSD1351 VCOMH command opcode (line 83). -/
def CMD_VCOMH : Int := 0xBE

/-- SSD1351 per-channel contrast command opcode (line 84). -/
def CMD_CONTRASTABC : Int := 0xC1

/-- SSD1351 master contrast command opcode (line 85). -/
def CMD_CONTRASTMASTER : Int := 0xC7

/-- SSD1351 multiplex-ratio command opcode (line 86). -/
def CMD_MUXRATIO : Int := 0xCA

/-- SSD1351 command-lock opcode (line 87). -/
def CMD_COMMANDLOCK : Int := 0xFD

/-- Display-on opcode used by `on` (line 25). -/
def DISPLAYON : Int := 0xAF

/-- Display-off opcode used by `off` (line 24). -/
def DISPLAYOFF : Int := 0xAE

/-- Alignment constant (line 93). -/
def OLED_TEXT_ALIGN_NONE : Nat := 0

/-- Alignment constant (line 94). -/
def OLED_TEXT_ALIGN_LEFT : Nat := 0x1

/-- Alignment constant (line 95). -/
def OLED_TEXT_ALIGN_RIGHT : Nat := 0x2

/-- Alignment constant (line 96). -/
def OLED_TEXT_ALIGN_CENTER : Nat := 0x3

/-- Vertical alignment constant (line 97). -/
def OLED_TEXT_VALIGN_TOP : Nat := 0x10

/-- Vertical alignment constant (line 98). -/
def OLED_TEXT_VALIGN_BOTTOM : Nat := 0x20

/-- Vertical alignment constant (line 99). -/
def OLED_TEXT_VALIGN_CENTER : Nat := 0x30

/-- The list of accepted alignment values (lines 101-109). -/
def OLED_TEXT_ALIGN : List Nat :=
  [OLED_TEXT_ALIGN_NONE, OLED_TEXT_ALIGN_LEFT, OLED_TEXT_ALIGN_RIGHT,
   OLED_TEXT_ALIGN_CENTER, OLED_TEXT_VALIGN_TOP, OLED_TEXT_VALIGN_BOTTOM,
   OLED_TEXT_VALIGN_CENTER]

/-- One transport event: a command byte (`_command`), a single parameter
byte (`_data`), or a streamed buffer (`_send_data`). -/
inductive Ev where
  | cmd (b : Int)
  | data (b : Int)
  | dat (bs : List Nat)
deriving DecidableEq

/-- Python exceptions that the embedded driver code can raise. -/
inductive PyErr where
  | typeError
  | nameError
  | valueError
deriving DecidableEq

/-- Driver instance state.  Mirrors the attributes of class `SSD1351`:
geometry set by `init` (lines 199-203), font state set by `_set_font`
(lines 276-288), text style set by `_set_text_prop` (lines 290-299), the
`dynamic_area` dictionary (lines 141-147) split into its entries, and the
scratch glyph buffer `c_buf` (line 156).  Attributes that Python leaves
unset until first assignment are modelled with default value 0 / [] /
false; no claim reads an attribute before the driver assigns it. -/
structure Display where
  screen_width : Nat := 0
  screen_height : Nat := 0
  column_offset : Nat := 0
  raw_offset : Nat := 0
  bit_per_pixel : Nat := 0
  font_init : Bool := false
  font : List Nat := []
  first_char : Nat := 0
  last_char : Nat := 0
  font_height : Nat := 0
  font_color : Nat := 0
  background : Nat := 0
  align : Nat := 0
  dyn_x : Nat := 0
  dyn_y : Nat := 0
  dyn_w : Nat := 0
  dyn_h : Nat := 0
  dyn_buf : List Nat := []
  c_buf : List Nat := []
deriving DecidableEq

/-- The state of a freshly constructed `SSD1351` object (lines 135-156),
before `init` runs. -/
def mkDisplay : Display := {}

/-- Linear rescale, `_scale` (lines 263-264).  The Python computes
`int(((x - inLow) / float(inHigh) * outHigh) + outLow)` in double
precision; over the byte domain used by `_encode_color` (0 ≤ x ≤ 255,
inHigh = 255, outHigh ≤ 63) the truncated double result coincides with
this exact integer formula, which is the faithful value. -/
def _scale (x inLow inHigh outLow outHigh : Nat) : Nat :=
  (x - inLow) * outHigh / inHigh + outLow

/-- Color encoder `_encode_color` (lines 266-274): splits a 24-bit color
into 8-bit channels, rescales them to 5/6/5 bits and packs them. -/
def _encode_color (color : Nat) : Nat :=
  let red := (color >>> 16) &&& 0xFF
  let green := (color >>> 8) &&& 0xFF
  let blue := color &&& 0xFF
  let redScaled := _scale red 0 0xFF 0 0x1F
  let greenScaled := _scale green 0 0xFF 0 0x3F
  let blueScaled := _scale blue 0 0xFF 0 0x1F
  (((redScaled <<< 6) ||| greenScaled) <<< 5) ||| blueScaled

/-- Font/style setter `_set_font` (lines 276-288).  List reads use
`getD _ 0`; the fonts any claim exercises are well formed, so the
`except` branch of the Python (which only logs) is never taken. -/
def _set_font (d : Display) (font : Option (List Nat)) (font_color : Option Nat)
    (encode : Bool) : Display :=
  let d := match font with
    | some f =>
      { d with font := f,
               first_char := f.getD 2 0 ||| (f.getD 3 0) <<< 8,
               last_char := f.getD 4 0 ||| (f.getD 5 0) <<< 8,
               font_height := f.getD 6 0 }
    | none => d
  match font_color with
  | some fc => { d with font_color := if encode then _encode_color fc else fc }
  | none => d

/-- Text style setter `_set_text_prop` (lines 290-299). -/
def _set_text_prop (d : Display) (align : Nat) (background : Option Nat)
    (encode : Bool) : Display :=
  let align := if align ∈ OLED_TEXT_ALIGN then align else OLED_TEXT_ALIGN_CENTER
  let background := match background with
    | some b => if encode then _encode_color b else b
    | none => 0x4471
  { d with align := align, background := background }

/-- Byte offset of a character's glyph record in the font table,
`8 + ((ord(c) - first_char) << 2)` (lines 304 and 363). -/
def glyph_index (d : Display) (c : Nat) : Nat :=
  8 + ((c - d.first_char) <<< 2)

/-- Glyph width: first byte of the glyph record (lines 305 and 365). -/
def glyph_width (d : Display) (c : Nat) : Nat :=
  d.font.getD (glyph_index d c) 0

/-- Glyph bitmap offset: 24-bit little-endian field of the glyph record
(line 366). -/
def glyph_offset (d : Display) (c : Nat) : Nat :=
  d.font.getD (glyph_index d c + 1) 0 |||
    (d.font.getD (glyph_index d c + 2) 0) <<< 8 |||
    (d.font.getD (glyph_index d c + 3) 0) <<< 16

/-- Text width computation `_get_text_width` (lines 301-312): sum of the
glyph widths plus one spacing pixel per character, minus the trailing
spacing. -/
def _get_text_width (d : Display) (text : List Nat) : Nat :=
  (text.foldl (fun t_width c => t_width + glyph_width d c + 1) 0) - 1

/-- Buffer of `n` identical 2-byte pixels.  This is the content that the
fill loops of `fill_rect` (lines 487-491) and `_create_text_background`
(lines 343-349) produce by writing positions `2*count` and `2*count + 1`
of a zero-initialised bytearray for every `count < n`. -/
def mk_pair_buf (n d1 d2 : Nat) : List Nat :=
  match n with
  | 0 => []
  | n + 1 => d1 :: d2 :: mk_pair_buf n d1 d2

/-- Background composition `_create_text_background` (lines 340-349). -/
def _create_text_background (d : Display) : Display :=
  { d with dyn_buf :=
      mk_pair_buf (d.dyn_w * d.dyn_h) (d.background >>> 8) (d.background &&& 0xFF) }

/-- The `while cnt < area` loop of `_write_c_to_buf` (lines 370-389).
Arguments after the width: remaining iterations, `x_count`, `mask`,
`byte`, `offset`.  At `x_count = 0` the mask is reset to 1 and the next
font byte is fetched; each pixel emits the font-color pair when the
masked bit is set and the background pair otherwise; after `c_width`
pixels the offset advances to the next font byte. -/
def wc_loop (font : List Nat) (fc bg c_width : Nat) :
    Nat → Nat → Nat → Nat → Nat → List Nat
  | 0, _, _, _, _ => []
  | r + 1, x_count, mask, byte, offset =>
    let mask1 := if x_count = 0 then 1 else mask
    let byte1 := if x_count = 0 then font.getD offset 0 else byte
    let pix := if byte1 &&& mask1 ≠ 0 then [fc >>> 8, fc &&& 0xFF]
               else [bg >>> 8, bg &&& 0xFF]
    if x_count + 1 = c_width then
      pix ++ wc_loop font fc bg c_width r 0 (mask1 <<< 1) byte1 (offset + 1)
    else
      pix ++ wc_loop font fc bg c_width r (x_count + 1) (mask1 <<< 1) byte1 offset

/-- Glyph unpacking `_write_c_to_buf` (lines 361-390): fills `c_buf` and
returns the glyph width. -/
def _write_c_to_buf (d : Display) (c : Nat) : Display × Nat :=
  let c_width := glyph_width d c
  let area := d.font_height * c_width
  let buf := wc_loop d.font d.font_color d.background c_width area 0 0 0
    (glyph_offset d c)
  ({ d with c_buf := buf }, c_width)

/-- The copy loop of `_add_char_to_dynamic_area` (lines 352-359): writes
the bytes of `c_buf` into the area buffer, jumping by the row stride
`(width - c_width) * 2` after every `c_width * 2` bytes. -/
def acda_loop (dyn_width c_width : Nat) :
    List Nat → List Nat → Nat → Nat → List Nat
  | buffer, [], _, _ => buffer
  | buffer, b :: rest, idx, x_count =>
    let buffer := buffer.set idx b
    if x_count + 1 = c_width * 2 then
      acda_loop dyn_width c_width buffer rest (idx + (dyn_width - c_width) * 2 + 1) 0
    else
      acda_loop dyn_width c_width buffer rest (idx + 1) (x_count + 1)

/-- Glyph blit `_add_char_to_dynamic_area` (lines 351-359).  Note the
definition takes three arguments `idx`, `c_width`, `c_height` (line 351)
and its body never uses `c_height`. -/
def _add_char_to_dynamic_area (d : Display) (idx c_width c_height : Nat) : Display :=
  { d with dyn_buf := acda_loop d.dyn_w c_width d.dyn_buf d.c_buf idx 0 }

/-- A Python call of the three-parameter method `_add_char_to_dynamic_area`
with a positional argument list: supplying any number of arguments other
than three raises `TypeError` before the body runs. -/
def call_add_char_to_dynamic_area (d : Display) (args : List Nat) :
    Display × Option PyErr :=
  match args with
  | [idx, c_width, c_height] => (_add_char_to_dynamic_area d idx c_width c_height, none)
  | _ => (d, some PyErr.typeError)

/-- The `for c in text` loop of `_add_text` (lines 333-338).  `xOpt` is
`none` when the Python local `x` was never assigned (no alignment branch
of lines 322-329 matched): its first use then raises a name error.  The
call on line 336 passes the two arguments `idx` and `c_width` to the
three-parameter method, so it raises `TypeError` (claim C1). -/
def add_text_loop (y : Nat) : Option Nat → Display → List Nat → Display × Option PyErr
  | _, d, [] => (d, none)
  | xOpt, d, c :: rest =>
    let dc := _write_c_to_buf d c
    match xOpt with
    | none => (dc.1, some PyErr.nameError)
    | some x =>
      let idx := y * dc.1.dyn_w * 2 + x * 2
      match call_add_char_to_dynamic_area dc.1 [idx, dc.2] with
      | (d2, some e) => (d2, some e)
      | (d2, none) => add_text_loop y (some (x + dc.2 + 1)) { d2 with c_buf := [] } rest

/-- Text layout `_add_text` (lines 314-338): area sizing, vertical and
horizontal placement, background composition, then the character loop. -/
def _add_text (d : Display) (text : List Nat) : Display × Option PyErr :=
  let t_width := _get_text_width d text
  let d := if d.dyn_w < t_width ∨ d.dyn_h < d.font_height then
             { d with dyn_w := t_width, dyn_h := d.font_height }
           else d
  let y := (d.dyn_h - d.font_height) >>> 1
  let xOpt : Option Nat :=
    if d.align = OLED_TEXT_ALIGN_LEFT then some 0
    else if d.align = OLED_TEXT_ALIGN_RIGHT then some (d.dyn_w - t_width)
    else if d.align = OLED_TEXT_ALIGN_CENTER then some ((d.dyn_w - t_width) / 2)
    else if d.align = OLED_TEXT_ALIGN_NONE then some 0
    else none
  let d := _create_text_background d
  add_text_loop y xOpt d text

/-- Address window manager `_prepare` (lines 392-410): silently skip when
the origin is off screen, clip the extent, translate by the fixed panel
offsets, then program the column range, the row range and write-RAM. -/
def _prepare (d : Display) (x y w h : Nat) : List Ev :=
  if d.screen_width ≤ x ∨ d.screen_height ≤ y then []
  else
    let h1 : Int := if (y : Int) + h > (d.screen_height : Int) then
                      (d.screen_height : Int) - y - 1 else (h : Int)
    let w1 : Int := if (x : Int) + w > (d.screen_width : Int) then
                      (d.screen_width : Int) - x - 1 else (w : Int)
    let x1 : Int := (x : Int) + d.column_offset
    let y1 : Int := (y : Int) + d.raw_offset
    [Ev.cmd CMD_SETCOLUMN, Ev.data x1, Ev.data (x1 + w1 - 1),
     Ev.cmd CMD_SETROW, Ev.data y1, Ev.data (y1 + h1 - 1),
     Ev.cmd CMD_WRITERAM]

/-- Initialization sequencer `init` (lines 186-241): reject oversized
dimensions with `ValueError`, record the geometry, and play the fixed
register program. -/
def init (d : Display) (screen_width screen_height : Nat) :
    Except PyErr (Display × List Ev) :=
  if screen_width > 128 ∨ screen_height > 128 then Except.error PyErr.valueError
  else
    let d := { d with screen_width := screen_width,
                      screen_height := screen_height,
                      column_offset := (128 - screen_width) >>> 1,
                      raw_offset := 0,
                      bit_per_pixel := 2 }
    Except.ok (d,
      [Ev.cmd CMD_COMMANDLOCK, Ev.data 0x12,
       Ev.cmd CMD_COMMANDLOCK, Ev.data 0xB1,
       Ev.cmd CMD_DISPLAYOFF,
       Ev.cmd CMD_CLOCKDIV, Ev.data 0xF1,
       Ev.cmd CMD_MUXRATIO, Ev.data ((screen_width : Int) - 1),
       Ev.cmd CMD_SETREMAP, Ev.data (screen_width : Int),
       Ev.cmd CMD_SETCOLUMN, Ev.data 0x00, Ev.data ((screen_width : Int) - 1),
       Ev.cmd CMD_SETROW, Ev.data 0x00, Ev.data ((screen_height : Int) - 1),
       Ev.cmd CMD_STARTLINE, Ev.data 0x80,
       Ev.cmd CMD_DISPLAYOFFSET, Ev.data (screen_width : Int),
       Ev.cmd CMD_PRECHARGE, Ev.data 0x32,
       Ev.cmd CMD_VCOMH, Ev.data 0x05,
       Ev.cmd CMD_NORMALDISPLAY,
       Ev.cmd CMD_CONTRASTABC, Ev.data 0x8A, Ev.data 0x51, Ev.data 0x8A,
       Ev.cmd CMD_CONTRASTMASTER, Ev.data 0xCF,
       Ev.cmd CMD_SETVSL, Ev.data 0xA0, Ev.data 0xB5, Ev.data 0x55,
       Ev.cmd CMD_PRECHARGE2, Ev.data 0x01])

/-- Contrast setter `set_contrast` (lines 412-425). -/
def set_contrast (_d : Display) (contrast : Nat) : Except PyErr (List Ev) :=
  if contrast > 255 then Except.error PyErr.valueError
  else Except.ok [Ev.cmd CMD_CONTRASTMASTER, Ev.data (contrast : Int)]

/-- Solid fill `fill_rect` (lines 460-493): program the window, encode
the color unless told not to, build the `w*h`-pixel buffer and stream
it.  Note the buffer uses the caller's `w`, `h` even when `_prepare`
clipped or skipped the window. -/
def fill_rect (d : Display) (x y w h color : Nat) (encode : Bool) : List Ev :=
  let pre := _prepare d x y w h
  let color := if encode then _encode_color color else color
  pre ++ [Ev.dat (mk_pair_buf (w * h) (color >>> 8) (color &&& 0xFF))]

/-- Full-screen fill `fill_screen` (lines 443-458). -/
def fill_screen (d : Display) (color : Nat) (encode : Bool) : List Ev :=
  fill_rect d 0 0 d.screen_width d.screen_height color encode

/-- Clear (lines 433-441): fill with black, encoding enabled. -/
def clear (d : Display) : List Ev := fill_screen d 0x000000 true

/-- Image blit `draw_img` (lines 495-516): window then raw pass-through. -/
def draw_img (d : Display) (bytes : List Nat) (x y w h : Nat) : List Ev :=
  _prepare d x y w h ++ [Ev.dat bytes]

/-- Single pixel `draw_pixel` (lines 518-540). -/
def draw_pixel (d : Display) (x y color : Nat) (encode : Bool) : List Ev :=
  let color := if encode then _encode_color color else color
  _prepare d x y 1 1 ++ [Ev.dat [color >>> 8, color &&& 0xFF]]

/-- Modelled from the spec: the built-in default font descriptor
`fonts.guiFont_Tahoma_7_Regular` that `draw_text` loads on first use
(line 576).  The module `solomon.ssd1351.fonts` is not part of the
sources; the spec fixes only the descriptor layout (first/last character
code at bytes 2-5, glyph height at byte 6), so a well-formed header
stands in for the real table.  No claim theorem evaluates glyphs of this
font: claims about text rendering quantify over already-initialised font
state. -/
def guiFont_Tahoma_7_Regular : List Nat := [0, 0, 32, 0, 126, 0, 7, 0]

/-- Result of a `draw_text` call: the final object state, the transport
events emitted before the call returned or raised, and the raised
exception if any. -/
structure DrawTextResult where
  d : Display
  tx : List Ev
  err : Option PyErr
deriving DecidableEq

/-- Style-resolution stage of `draw_text` (lines 578-589): the font
color is re-set on every call (to the caller's color, or to encoded
white 0xFFFFFF), and `_set_text_prop` re-runs on every call through one
of the four argument combinations. -/
def draw_text_styled (d : Display) (color align background : Option Nat)
    (encode : Bool) : Display :=
  let d := match color with
    | some c => _set_font d none (some c) encode
    | none => _set_font d none (some 0xFFFFFF) true
  match background, align with
  | some b, some a => _set_text_prop d a (some b) encode
  | some b, none => _set_text_prop d OLED_TEXT_ALIGN_CENTER (some b) encode
  | none, some a => _set_text_prop d a none true
  | none, none => _set_text_prop d OLED_TEXT_ALIGN_CENTER none true

/-- Text-box defaulting and dynamic-area setup of `draw_text`
(lines 590-601): absent box coordinates default to 0, absent width to
the computed text width, absent height to the font height; the dynamic
area is then recreated from the box. -/
def draw_text_boxed (d : Display) (text : List Nat) (x y w h : Option Nat) : Display :=
  { d with dyn_x := x.getD 0,
           dyn_y := y.getD 0,
           dyn_w := match w with
             | some w => w
             | none => _get_text_width d text,
           dyn_h := h.getD d.font_height }

/-- Text renderer `draw_text` (lines 542-605): lazy default-font load,
style resolution, text-box defaulting, dynamic-area setup, layout and
composition via `_add_text`, then window programming and transmission.
A Python exception raised inside `_add_text` propagates out of
`draw_text` with the object state as mutated so far and nothing sent. -/
def draw_text (d : Display) (text : List Nat) (x y w h color align background : Option Nat)
    (encode : Bool) : DrawTextResult :=
  let d := if d.font_init then d
           else { _set_font d (some guiFont_Tahoma_7_Regular) (some 0xFFFF) false with
                  font_init := true }
  let d := draw_text_styled d color align background encode
  let d := draw_text_boxed d text x y w h
  match _add_text d text with
  | (d, some e) => ⟨d, [], some e⟩
  | (d, none) =>
    let pre := _prepare d d.dyn_x d.dyn_y d.dyn_w d.dyn_h
    ⟨{ d with dyn_buf := [] }, pre ++ [Ev.dat d.dyn_buf], none⟩

/-- A small well-formed font used to instantiate theorems: characters
65..67 ('A'..'C'), glyph height 2, widths 3, 2, 1, bitmaps at offsets
20, 22, 24. -/
def testFont : List Nat :=
  [0, 0, 65, 0, 67, 0, 2, 0,
   3, 20, 0, 0,
   2, 22, 0, 0,
   1, 24, 0, 0,
   5, 2,
   1, 1,
   1, 0]

/-- A concrete initialised driver state over `testFont`, as left by
`init 96 96` followed by loading `testFont` and the default style. -/
def dT : Display :=
  { screen_width := 96, screen_height := 96, column_offset := 16,
    raw_offset := 0, bit_per_pixel := 2, font_init := true,
    font := testFont, first_char := 65, last_char := 67, font_height := 2,
    font_color := 0xFFFF, background := 0x4471,
    align := OLED_TEXT_ALIGN_CENTER }

/-- The 2-byte pixel that `_write_c_to_buf` emits for bit `j` of a font
byte: the font-color pair when the bit is set, the background pair
otherwise (lines 377-383 with `mask = 1 << j`). -/
def pixPair (fc bg byte j : Nat) : List Nat :=
  if byte &&& (1 <<< j) ≠ 0 then [fc >>> 8, fc &&& 0xFF]
  else [bg >>> 8, bg &&& 0xFF]

/-- Pixels `j, j+1, ..., j+k-1` of one glyph row, all read from the same
font byte. -/
def specRowFrom (fc bg byte : Nat) : Nat → Nat → List Nat
  | _, 0 => []
  | j, k + 1 => pixPair fc bg byte j ++ specRowFrom fc bg byte (j + 1) k

/-- Row-major glyph unpacking: row r of the glyph is produced from the
single font byte at `offset + r` (bit j = the pixel in column j), one
byte per row.  This is the closed form of the `_write_c_to_buf` loop. -/
def rowMajorBuf (font : List Nat) (fc bg c_width : Nat) : Nat → Nat → List Nat
  | _, 0 => []
  | offset, rows + 1 =>
    specRowFrom fc bg (font.getD offset 0) 0 c_width ++
      rowMajorBuf font fc bg c_width (offset + 1) rows

/-- Column-major glyph unpacking following the spec's words for claim
C8: each font byte holds 8 vertical bits of one column before advancing
to the next column (bit 0 = top-left), so pixel (r, col) — emitted in
row-major buffer order `cnt = r * width + col` — reads bit `r % 8` of
the font byte at `offset + col * ceil(height/8) + r / 8`; set bits yield
the font-color pair, clear bits the background pair. -/
def specColumnMajorUnpack (font : List Nat) (fc bg c_width fh offset : Nat) : List Nat :=
  ((List.range (fh * c_width)).map (fun cnt =>
    pixPair fc bg
      (font.getD (offset + (cnt % c_width) * ((fh + 7) / 8) + cnt / c_width / 8) 0)
      (cnt / c_width % 8))).flatten

/-! ## Helper lemmas -/

/-- Off-screen origin makes `_prepare` a silent no-op. -/
lemma prepare_oob_nil (d : Display) (x y w h : Nat)
    (hxy : d.screen_width ≤ x ∨ d.screen_height ≤ y) :
    _prepare d x y w h = [] := by
  unfold _prepare
  rw [if_pos hxy]

/-- Length of a solid pixel buffer. -/
lemma mk_pair_buf_length (n a b : Nat) : (mk_pair_buf n a b).length = 2 * n := by
  induction n with
  | zero => rfl
  | succ n ih => simp [mk_pair_buf, ih]; omega

/-- The solid pixel buffer is the flattening of `n` copies of the pair. -/
lemma mk_pair_buf_eq_flatten (n a b : Nat) :
    mk_pair_buf n a b = List.flatten (List.replicate n [a, b]) := by
  induction n with
  | zero => rfl
  | succ n ih => simp [mk_pair_buf, List.replicate_succ, ih]

/-- Left shift distributes over bitwise or. -/
lemma shiftLeft_lor_distrib (a b k : Nat) :
    (a ||| b) <<< k = (a <<< k) ||| (b <<< k) := by
  apply Nat.eq_of_testBit_eq
  intro i
  simp [Nat.testBit_shiftLeft, Nat.testBit_or, Bool.and_or_distrib_left]

/-- Accumulator shift for the width fold of `_get_text_width`. -/
lemma foldl_width_shift (d : Display) (l : List Nat) :
    ∀ a : Nat, l.foldl (fun t_width c => t_width + glyph_width d c + 1) a
      = a + l.foldl (fun t_width c => t_width + glyph_width d c + 1) 0 := by
  induction l with
  | nil => simp
  | cons c tl ih =>
    intro a
    simp only [List.foldl_cons]
    rw [ih (a + glyph_width d c + 1), ih (0 + glyph_width d c + 1)]
    omega

/-- The width fold of a non-empty string is at least 1. -/
lemma foldl_width_pos (d : Display) (l : List Nat) (h : l ≠ []) :
    1 ≤ l.foldl (fun t_width c => t_width + glyph_width d c + 1) 0 := by
  cases l with
  | nil => exact absurd rfl h
  | cons c tl =>
    simp only [List.foldl_cons]
    rw [foldl_width_shift]
    omega

/-! ## Claim theorems -/

/-- Claim C5: for every (x, y, w, h) with x < screen width and
y < screen height, `_prepare` shrinks w to (screen width − x − 1) when
x+w exceeds the screen width, symmetrically shrinks h against the screen
height, translates x by the column offset and y by the row offset, and
emits exactly the column-range command (x, x+w−1), the row-range command
(y, y+h−1) and the write-RAM command, in that order. -/
theorem prepare_clip_translate_emit (d : Display) (x y w h : Nat)
    (hx : x < d.screen_width) (hy : y < d.screen_height) :
    _prepare d x y w h =
      [Ev.cmd CMD_SETCOLUMN,
       Ev.data ((x : Int) + d.column_offset),
       Ev.data ((x : Int) + d.column_offset +
         (if (x : Int) + w > (d.screen_width : Int) then
            (d.screen_width : Int) - x - 1 else (w : Int)) - 1),
       Ev.cmd CMD_SETROW,
       Ev.data ((y : Int) + d.raw_offset),
       Ev.data ((y : Int) + d.raw_offset +
         (if (y : Int) + h > (d.screen_height : Int) then
            (d.screen_height : Int) - y - 1 else (h : Int)) - 1),
       Ev.cmd CMD_WRITERAM] := by
  unfold _prepare
  rw [if_neg (by omega : ¬(d.screen_width ≤ x ∨ d.screen_height ≤ y))]

/-- Witness for C5 on a concrete clipped rectangle. -/
theorem prepare_clip_translate_emit_witness :
    90 < dT.screen_width ∧ 0 < dT.screen_height ∧
    _prepare dT 90 0 20 96 =
      [Ev.cmd CMD_SETCOLUMN, Ev.data 106, Ev.data 110,
       Ev.cmd CMD_SETROW, Ev.data 0, Ev.data 95, Ev.cmd CMD_WRITERAM] :=
  ⟨by decide, by decide,
   (prepare_clip_translate_emit dT 90 0 20 96 (by decide) (by decide)).trans (by decide)⟩

/-- Claim C6: for every (x, y, w, h) with x ≥ screen width or
y ≥ screen height, `_prepare` sends no commands and no bytes and raises
no error (its embedding is a total function returning the empty trace). -/
theorem prepare_out_of_bounds_noop (d : Display) (x y w h : Nat)
    (hxy : d.screen_width ≤ x ∨ d.screen_height ≤ y) :
    _prepare d x y w h = [] :=
  prepare_oob_nil d x y w h hxy

/-- Witness for C6 at a concrete off-screen origin. -/
theorem prepare_out_of_bounds_noop_witness :
    dT.screen_width ≤ 96 ∧ _prepare dT 96 0 5 5 = [] :=
  ⟨by decide, prepare_out_of_bounds_noop dT 96 0 5 5 (Or.inl (by decide))⟩

/-- Claim C7: `_encode_color c` equals
(⌊r·31/255⌋ << 11) ||| (⌊g·63/255⌋ << 5) ||| ⌊b·31/255⌋ for the 8-bit
channels r, g, b of c, and the result always fits in 16 bits. -/
theorem encode_color_formula (c : Nat) :
    _encode_color c =
      ((((c >>> 16) &&& 0xFF) * 31 / 255) <<< 11) |||
        ((((c >>> 8) &&& 0xFF) * 63 / 255) <<< 5) |||
        ((c &&& 0xFF) * 31 / 255) ∧
    _encode_color c < 2 ^ 16 := by
  have heq : _encode_color c =
      ((((c >>> 16) &&& 0xFF) * 31 / 255) <<< 11) |||
        ((((c >>> 8) &&& 0xFF) * 63 / 255) <<< 5) |||
        ((c &&& 0xFF) * 31 / 255) := by
    simp only [_encode_color, _scale, Nat.sub_zero, Nat.add_zero]
    rw [shiftLeft_lor_distrib, ← Nat.shiftLeft_add]
  refine ⟨heq, ?_⟩
  rw [heq]
  have hr : (c >>> 16) &&& 0xFF ≤ 255 := Nat.and_le_right
  have hg : (c >>> 8) &&& 0xFF ≤ 255 := Nat.and_le_right
  have hb : c &&& 0xFF ≤ 255 := Nat.and_le_right
  have hr2 : ((c >>> 16) &&& 0xFF) * 31 / 255 ≤ 31 := by
    calc ((c >>> 16) &&& 0xFF) * 31 / 255 ≤ 255 * 31 / 255 :=
          Nat.div_le_div_right (by omega)
      _ = 31 := by norm_num
  have hg2 : ((c >>> 8) &&& 0xFF) * 63 / 255 ≤ 63 := by
    calc ((c >>> 8) &&& 0xFF) * 63 / 255 ≤ 255 * 63 / 255 :=
          Nat.div_le_div_right (by omega)
      _ = 63 := by norm_num
  have hb2 : (c &&& 0xFF) * 31 / 255 ≤ 31 := by
    calc (c &&& 0xFF) * 31 / 255 ≤ 255 * 31 / 255 :=
          Nat.div_le_div_right (by omega)
      _ = 31 := by norm_num
  apply Nat.or_lt_two_pow
  · apply Nat.or_lt_two_pow
    · rw [Nat.shiftLeft_eq]
      norm_num
      omega
    · rw [Nat.shiftLeft_eq]
      norm_num
      omega
  · omega

/-- Claim C9: text width is additive for non-empty strings of in-range
characters: the width of a concatenation is the sum of the widths plus
the single inter-glyph space. -/
theorem text_width_additive (d : Display) (s t : List Nat)
    (hs : s ≠ []) (ht : t ≠ [])
    (hrange : ∀ c ∈ s ++ t, d.first_char ≤ c ∧ c ≤ d.last_char) :
    _get_text_width d (s ++ t) = _get_text_width d s + _get_text_width d t + 1 := by
  unfold _get_text_width
  rw [List.foldl_append, foldl_width_shift]
  have h1 := foldl_width_pos d s hs
  have h2 := foldl_width_pos d t ht
  omega

/-- Witness for C9 on concrete strings over the test font. -/
theorem text_width_additive_witness :
    _get_text_width dT ([65] ++ [66, 67]) =
      _get_text_width dT [65] + _get_text_width dT [66, 67] + 1 :=
  text_width_additive dT [65] [66, 67] (by decide) (by decide) (by decide)

/-- Claim C10: a `fill_rect` whose origin is off screen emits no window
commands, yet still streams a data buffer of w*h*2 bytes. -/
theorem fill_rect_oob_still_streams (d : Display) (x y w h color : Nat) (encode : Bool)
    (hxy : d.screen_width ≤ x ∨ d.screen_height ≤ y) :
    fill_rect d x y w h color encode =
      [Ev.dat (mk_pair_buf (w * h)
        ((if encode then _encode_color color else color) >>> 8)
        ((if encode then _encode_color color else color) &&& 0xFF))] ∧
    (mk_pair_buf (w * h)
        ((if encode then _encode_color color else color) >>> 8)
        ((if encode then _encode_color color else color) &&& 0xFF)).length = w * h * 2 := by
  constructor
  · unfold fill_rect
    rw [prepare_oob_nil d x y w h hxy]
    rfl
  · rw [mk_pair_buf_length]
    omega

/-- Witness for C10 at a concrete off-screen fill. -/
theorem fill_rect_oob_still_streams_witness :
    fill_rect dT 100 0 2 2 0xFFFF false =
      [Ev.dat [255, 255, 255, 255, 255, 255, 255, 255]] ∧
    (100 ≥ dT.screen_width) :=
  ⟨((fill_rect_oob_still_streams dT 100 0 2 2 0xFFFF false (Or.inl (by decide))).1).trans
     (by decide), by decide⟩

/-- Claim C4: after `init(96,96)`, `fill_screen(0x4471, encode=False)`
programs the column range 16..111 and the row range 0..95, sends the
write-RAM command, and streams 96·96·2 = 18432 data bytes whose 2-byte
pairs are all 0x44, 0x71. -/
theorem init96_fill_screen_trace (d : Display) (p : Display × List Ev)
    (hinit : init d 96 96 = Except.ok p) :
    fill_screen p.1 0x4471 false =
      [Ev.cmd CMD_SETCOLUMN, Ev.data 16, Ev.data 111,
       Ev.cmd CMD_SETROW, Ev.data 0, Ev.data 95,
       Ev.cmd CMD_WRITERAM,
       Ev.dat (List.flatten (List.replicate 9216 [0x44, 0x71]))] ∧
    (List.flatten (List.replicate 9216 ([0x44, 0x71] : List Nat))).length = 18432 := by
  constructor
  · unfold init at hinit
    rw [if_neg (by norm_num)] at hinit
    have hp := Except.ok.inj hinit
    subst hp
    unfold fill_screen fill_rect _prepare
    rw [← mk_pair_buf_eq_flatten]
    norm_num
    refine ⟨by decide, by decide, ?_⟩
    congr 1
  · rw [← mk_pair_buf_eq_flatten, mk_pair_buf_length]

/-- Witness for C4, running `init` on a freshly constructed display. -/
theorem init96_fill_screen_trace_witness :
    fill_screen ((init mkDisplay 96 96).toOption.getD (mkDisplay, [])).1 0x4471 false =
      [Ev.cmd CMD_SETCOLUMN, Ev.data 16, Ev.data 111,
       Ev.cmd CMD_SETROW, Ev.data 0, Ev.data 95,
       Ev.cmd CMD_WRITERAM,
       Ev.dat (List.flatten (List.replicate 9216 [0x44, 0x71]))] :=
  (init96_fill_screen_trace mkDisplay _ rfl).1

/-- The character loop stops at its first character: the two-argument
call of the three-parameter `_add_char_to_dynamic_area` raises before any
second iteration, and with `xOpt = none` the first use of `x` raises, so
the resulting state is always the one left by `_write_c_to_buf`. -/
lemma add_text_loop_cons_fst (y : Nat) (xOpt : Option Nat) (d : Display)
    (c : Nat) (rest : List Nat) :
    (add_text_loop y xOpt d (c :: rest)).1 = (_write_c_to_buf d c).1 := by
  cases xOpt with
  | none => rfl
  | some x => rfl

/-- With an assigned horizontal position the first iteration raises the
argument-count `TypeError` of line 336. -/
lemma add_text_loop_cons_snd_some (y x : Nat) (d : Display) (c : Nat) (rest : List Nat) :
    (add_text_loop y (some x) d (c :: rest)).2 = some PyErr.typeError := rfl

/-- With no alignment branch taken the first iteration raises the
unbound-local name error for `x`. -/
lemma add_text_loop_cons_snd_none (y : Nat) (d : Display) (c : Nat) (rest : List Nat) :
    (add_text_loop y none d (c :: rest)).2 = some PyErr.nameError := rfl

/-- State left by `_add_text`: style fields are untouched, and both area
dimensions are overwritten with (text width, font height) exactly when
the width is narrower than the text or the height shorter than the font. -/
lemma add_text_state (d dres : Display) (e : Option PyErr) (text : List Nat)
    (hA : _add_text d text = (dres, e)) :
    dres.font_color = d.font_color ∧ dres.background = d.background ∧
    dres.align = d.align ∧
    dres.dyn_w = (if d.dyn_w < _get_text_width d text ∨ d.dyn_h < d.font_height
                  then _get_text_width d text else d.dyn_w) ∧
    dres.dyn_h = (if d.dyn_w < _get_text_width d text ∨ d.dyn_h < d.font_height
                  then d.font_height else d.dyn_h) := by
  have h1 : dres = (_add_text d text).1 := by rw [hA]
  subst h1
  cases text with
  | nil =>
    by_cases hc : d.dyn_w < _get_text_width d [] ∨ d.dyn_h < d.font_height <;>
      simp [_add_text, add_text_loop, _create_text_background, hc]
  | cons c rest =>
    by_cases hc : d.dyn_w < _get_text_width d (c :: rest) ∨ d.dyn_h < d.font_height <;>
      simp [_add_text, add_text_loop_cons_fst, _write_c_to_buf,
        _create_text_background, hc]

/-- The resolved alignment is always one of the four horizontal values
when the requested value is not one of the three vertical-only ones. -/
lemma set_text_prop_align_mem (d : Display) (a : Nat) (bg : Option Nat) (enc : Bool)
    (ha1 : a ≠ OLED_TEXT_VALIGN_TOP) (ha2 : a ≠ OLED_TEXT_VALIGN_BOTTOM)
    (ha3 : a ≠ OLED_TEXT_VALIGN_CENTER) :
    (_set_text_prop d a bg enc).align = OLED_TEXT_ALIGN_NONE ∨
    (_set_text_prop d a bg enc).align = OLED_TEXT_ALIGN_LEFT ∨
    (_set_text_prop d a bg enc).align = OLED_TEXT_ALIGN_RIGHT ∨
    (_set_text_prop d a bg enc).align = OLED_TEXT_ALIGN_CENTER := by
  unfold _set_text_prop
  dsimp only
  by_cases hm : a ∈ OLED_TEXT_ALIGN
  · rw [if_pos hm]
    simp only [OLED_TEXT_ALIGN, OLED_TEXT_ALIGN_NONE, OLED_TEXT_ALIGN_LEFT,
      OLED_TEXT_ALIGN_RIGHT, OLED_TEXT_ALIGN_CENTER, OLED_TEXT_VALIGN_TOP,
      OLED_TEXT_VALIGN_BOTTOM, OLED_TEXT_VALIGN_CENTER,
      List.mem_cons, List.mem_singleton, List.not_mem_nil] at hm ha1 ha2 ha3 ⊢
    rcases hm with rfl | rfl | rfl | rfl | rfl | rfl | rfl | hF
    · exact Or.inl rfl
    · exact Or.inr (Or.inl rfl)
    · exact Or.inr (Or.inr (Or.inl rfl))
    · exact Or.inr (Or.inr (Or.inr rfl))
    · exact absurd rfl ha1
    · exact absurd rfl ha2
    · exact absurd rfl ha3
    · exact hF.elim
  · rw [if_neg hm]
    right; right; right; rfl

/-- The first loop iteration with an assigned `x` always errors, so the
whole loop call equals the pair it returns there. -/
lemma add_text_loop_cons_some_eq (y x : Nat) (d : Display) (c : Nat) (rest : List Nat) :
    add_text_loop y (some x) d (c :: rest) =
      ((_write_c_to_buf d c).1, some PyErr.typeError) := rfl

/-- The first loop iteration with unassigned `x` raises the name error. -/
lemma add_text_loop_cons_none_eq (y : Nat) (d : Display) (c : Nat) (rest : List Nat) :
    add_text_loop y none d (c :: rest) =
      ((_write_c_to_buf d c).1, some PyErr.nameError) := rfl

/-- On a non-empty text with a horizontally-aligned state, `_add_text`
always raises the argument-count `TypeError` of the call on line 336. -/
lemma add_text_err (d : Display) (c : Nat) (rest : List Nat)
    (halign : d.align = OLED_TEXT_ALIGN_NONE ∨ d.align = OLED_TEXT_ALIGN_LEFT ∨
      d.align = OLED_TEXT_ALIGN_RIGHT ∨ d.align = OLED_TEXT_ALIGN_CENTER) :
    (_add_text d (c :: rest)).2 = some PyErr.typeError := by
  by_cases hc : d.dyn_w < _get_text_width d (c :: rest) ∨ d.dyn_h < d.font_height <;>
    rcases halign with h | h | h | h <;>
      simp [_add_text, hc, h, add_text_loop_cons_some_eq, _create_text_background,
        OLED_TEXT_ALIGN_NONE, OLED_TEXT_ALIGN_LEFT, OLED_TEXT_ALIGN_RIGHT,
        OLED_TEXT_ALIGN_CENTER]

/-- Text width only depends on the font table and the first character
code. -/
lemma get_text_width_congr (d1 d2 : Display) (hf : d1.font = d2.font)
    (hc : d1.first_char = d2.first_char) (text : List Nat) :
    _get_text_width d1 text = _get_text_width d2 text := by
  unfold _get_text_width glyph_width glyph_index
  simp only [hf, hc]

/-- Style resolution never touches the font table or its metrics. -/
lemma styled_font_fields (d : Display) (color align background : Option Nat)
    (encode : Bool) :
    (draw_text_styled d color align background encode).font = d.font ∧
    (draw_text_styled d color align background encode).first_char = d.first_char ∧
    (draw_text_styled d color align background encode).font_height = d.font_height := by
  rcases color with _ | cv <;> rcases background with _ | bv <;> rcases align with _ | av <;>
    simp [draw_text_styled, _set_font, _set_text_prop]

/-- Unless the caller requests a vertical-only alignment value, the
resolved alignment after style resolution is one of the four horizontal
values. -/
lemma styled_align_mem (d : Display) (color background : Option Nat)
    (align : Option Nat) (encode : Bool)
    (ha1 : align ≠ some OLED_TEXT_VALIGN_TOP)
    (ha2 : align ≠ some OLED_TEXT_VALIGN_BOTTOM)
    (ha3 : align ≠ some OLED_TEXT_VALIGN_CENTER) :
    (draw_text_styled d color align background encode).align = OLED_TEXT_ALIGN_NONE ∨
    (draw_text_styled d color align background encode).align = OLED_TEXT_ALIGN_LEFT ∨
    (draw_text_styled d color align background encode).align = OLED_TEXT_ALIGN_RIGHT ∨
    (draw_text_styled d color align background encode).align = OLED_TEXT_ALIGN_CENTER := by
  rcases align with _ | av
  · right; right; right
    rcases background with _ | bv <;> simp [draw_text_styled, _set_text_prop]
  · have hv1 : av ≠ OLED_TEXT_VALIGN_TOP := fun hh => ha1 (by rw [hh])
    have hv2 : av ≠ OLED_TEXT_VALIGN_BOTTOM := fun hh => ha2 (by rw [hh])
    have hv3 : av ≠ OLED_TEXT_VALIGN_CENTER := fun hh => ha3 (by rw [hh])
    rcases background with _ | bv <;>
      exact set_text_prop_align_mem _ av _ _ hv1 hv2 hv3

/-- Counterexample to claim C1 as stated: a call whose `align` argument
is the vertical-only value 0x30 (accepted by `_set_text_prop`) leaves no
branch of lines 322-329 to assign the local `x`, so the call fails with
an unbound-local name error, not with the argument-count `TypeError`. -/
theorem draw_text_valign_name_error :
    (draw_text dT [65] none none none none none (some OLED_TEXT_VALIGN_CENTER)
        none true).err ≠ some PyErr.typeError ∧
    (draw_text dT [65] none none none none none (some OLED_TEXT_VALIGN_CENTER)
        none true).err = some PyErr.nameError := by
  constructor <;> decide

/-- Claim C1 (amended): every `draw_text` call on a non-empty in-range
text whose `align` argument is not one of the vertical-only values
raises the argument-count `TypeError` — `_add_text` passes two arguments
(line 336) to the three-parameter `_add_char_to_dynamic_area`
(line 351) — before any composed pixel data reaches the transport. -/
theorem draw_text_arity_type_error (d : Display) (text : List Nat)
    (x y w h color align background : Option Nat) (encode : Bool)
    (hfont : d.font_init = true) (htext : text ≠ [])
    (hrange : ∀ c ∈ text, d.first_char ≤ c ∧ c ≤ d.last_char)
    (ha1 : align ≠ some OLED_TEXT_VALIGN_TOP)
    (ha2 : align ≠ some OLED_TEXT_VALIGN_BOTTOM)
    (ha3 : align ≠ some OLED_TEXT_VALIGN_CENTER) :
    (draw_text d text x y w h color align background encode).err = some PyErr.typeError ∧
    (draw_text d text x y w h color align background encode).tx = [] := by
  obtain ⟨c, rest, rfl⟩ : ∃ c rest, text = c :: rest := by
    cases text with
    | nil => exact absurd rfl htext
    | cons c rest => exact ⟨c, rest, rfl⟩
  unfold draw_text
  rw [if_pos hfont]
  dsimp only
  obtain ⟨d2, e2, hx⟩ : ∃ a b,
      _add_text (draw_text_boxed (draw_text_styled d color align background encode)
        (c :: rest) x y w h) (c :: rest) = (a, b) := ⟨_, _, rfl⟩
  have hba : (draw_text_boxed (draw_text_styled d color align background encode)
      (c :: rest) x y w h).align
      = (draw_text_styled d color align background encode).align := by
    simp [draw_text_boxed]
  have hmem := styled_align_mem d color background align encode ha1 ha2 ha3
  rw [← hba] at hmem
  have herr := add_text_err _ c rest hmem
  rw [hx] at herr
  simp only at herr
  subst herr
  rw [hx]
  exact ⟨rfl, rfl⟩

/-- Witness for the amended C1 on a concrete call. -/
theorem draw_text_arity_type_error_witness :
    dT.font_init = true ∧
    (draw_text dT [65] none none none none none none none true).err
      = some PyErr.typeError ∧
    (draw_text dT [65] none none none none none none none true).tx = [] :=
  ⟨rfl,
   (draw_text_arity_type_error dT [65] none none none none none none none true
      rfl (by decide) (by decide) (by decide) (by decide) (by decide)).1,
   (draw_text_arity_type_error dT [65] none none none none none none none true
      rfl (by decide) (by decide) (by decide) (by decide) (by decide)).2⟩

/-- Counterexample to claim C2 as stated: after a first call that
resolves the font color from 0xFF0000 (to 0xF800), a second call that
leaves `color` unspecified does not retain that resolved color — it is
reset to encoded white 0xFFFF. -/
theorem draw_text_style_not_retained :
    (draw_text ((draw_text dT [65] none none none none (some 0xFF0000) none none
        true).d) [65] none none none none none none none true).d.font_color
      ≠ (draw_text dT [65] none none none none (some 0xFF0000) none none
        true).d.font_color := by
  decide

/-- The style fields of the state a `draw_text` call returns are the
ones the style-resolution stage resolved: the box stage and `_add_text`
never touch them, on the error path and on the success path alike. -/
lemma draw_text_final_style (d : Display) (text : List Nat)
    (x y w h color align background : Option Nat) (encode : Bool)
    (hfont : d.font_init = true) :
    (draw_text d text x y w h color align background encode).d.font_color
      = (draw_text_styled d color align background encode).font_color ∧
    (draw_text d text x y w h color align background encode).d.background
      = (draw_text_styled d color align background encode).background ∧
    (draw_text d text x y w h color align background encode).d.align
      = (draw_text_styled d color align background encode).align := by
  unfold draw_text
  rw [if_pos hfont]
  dsimp only
  obtain ⟨d2, e2, hx⟩ : ∃ a b,
      _add_text (draw_text_boxed (draw_text_styled d color align background encode)
        text x y w h) text = (a, b) := ⟨_, _, rfl⟩
  obtain ⟨h1, h2, h3, _, _⟩ := add_text_state _ _ _ _ hx
  rw [hx]
  cases e2 <;> simp [h1, h2, h3, draw_text_boxed]

/-- With `color=None`, line 581 resolves the font color to encoded
white no matter which `_set_text_prop` branch runs afterwards. -/
lemma styled_color_none (d : Display) (align background : Option Nat)
    (encode : Bool) :
    (draw_text_styled d none align background encode).font_color
      = _encode_color 0xFFFFFF := by
  rcases background with _ | bv <;> rcases align with _ | av <;>
    simp [draw_text_styled, _set_font, _set_text_prop]

/-- With `background=None`, both reachable `_set_text_prop` branches
(lines 586-589) resolve the background to the fixed teal 0x4471. -/
lemma styled_background_none (d : Display) (color align : Option Nat)
    (encode : Bool) :
    (draw_text_styled d color align none encode).background = 0x4471 := by
  rcases color with _ | cv <;> rcases align with _ | av <;>
    simp [draw_text_styled, _set_font, _set_text_prop]

/-- With `align=None`, both reachable `_set_text_prop` branches
(lines 584-585 and 588-589) resolve the alignment to center. -/
lemma styled_align_none (d : Display) (color background : Option Nat)
    (encode : Bool) :
    (draw_text_styled d color none background encode).align
      = OLED_TEXT_ALIGN_CENTER := by
  rcases color with _ | cv <;> rcases background with _ | bv <;>
    simp [draw_text_styled, _set_font, _set_text_prop]

/-- Claim C2 (amended): in every `draw_text` call, each style argument
left unspecified is independently reset to its default — font color
encode(0xFFFFFF) = 0xFFFF when `color` is unspecified, background
0x4471 when `background` is unspecified, center alignment when `align`
is unspecified — whatever the other arguments are and whatever the
previous call resolved; the previously resolved style is never
retained. -/
theorem draw_text_style_reset_to_defaults (d : Display) (text : List Nat)
    (x y w h color align background : Option Nat) (encode : Bool)
    (hfont : d.font_init = true) :
    (color = none →
      (draw_text d text x y w h color align background encode).d.font_color
        = 0xFFFF) ∧
    (background = none →
      (draw_text d text x y w h color align background encode).d.background
        = 0x4471) ∧
    (align = none →
      (draw_text d text x y w h color align background encode).d.align
        = OLED_TEXT_ALIGN_CENTER) := by
  obtain ⟨h1, h2, h3⟩ :=
    draw_text_final_style d text x y w h color align background encode hfont
  refine ⟨?_, ?_, ?_⟩
  · intro hcol
    subst hcol
    rw [h1, styled_color_none]
    decide
  · intro hbg
    subst hbg
    rw [h2, styled_background_none]
  · intro hal
    subst hal
    rw [h3, styled_align_none]

/-- Witness for the amended C2 on a concrete call that specifies the
background but leaves color and align unspecified: both unspecified
settings reset to their defaults. -/
theorem draw_text_style_reset_to_defaults_witness :
    dT.font_init = true ∧
    (draw_text dT [65] none none none none none none (some 0x123456)
        true).d.font_color = 0xFFFF ∧
    (draw_text dT [65] none none none none none none (some 0x123456)
        true).d.align = OLED_TEXT_ALIGN_CENTER ∧
    (draw_text dT [65] none none none none (some 0xFF0000) none none
        true).d.background = 0x4471 :=
  ⟨rfl,
   (draw_text_style_reset_to_defaults dT [65] none none none none none none
      (some 0x123456) true rfl).1 rfl,
   (draw_text_style_reset_to_defaults dT [65] none none none none none none
      (some 0x123456) true rfl).2.2 rfl,
   (draw_text_style_reset_to_defaults dT [65] none none none none
      (some 0xFF0000) none none true rfl).2.1 rfl⟩

/-- Counterexample to claim C3 as stated: with box (w, h) = (1, 50),
text "A" of width 3 and font height 2, the width trigger fires and both
dimensions are overwritten, so the area height becomes 2, not
max 50 (font height) = 50 — the height shrinks below the caller's box. -/
theorem draw_text_area_height_shrinks :
    (draw_text dT [65] (some 0) (some 0) (some 1) (some 50) none none none
        true).d.dyn_h ≠ max 50 dT.font_height := by
  decide

/-- Claim C3 (amended): after the area-sizing stage of a `draw_text`
call with caller-specified box (w, h), the dynamic area is (text width,
font height) when w < text width or h < font height, and (w, h)
unchanged otherwise; when only one dimension triggers the condition the
other is overwritten too, so a dimension can shrink below the caller's
box. -/
theorem draw_text_area_sizing_joint (d : Display) (text : List Nat)
    (bx by2 bw bh : Nat) (color align background : Option Nat) (encode : Bool)
    (hfont : d.font_init = true) (htext : text ≠ []) :
    (draw_text d text (some bx) (some by2) (some bw) (some bh) color align
        background encode).d.dyn_w
      = (if bw < _get_text_width d text ∨ bh < d.font_height
         then _get_text_width d text else bw) ∧
    (draw_text d text (some bx) (some by2) (some bw) (some bh) color align
        background encode).d.dyn_h
      = (if bw < _get_text_width d text ∨ bh < d.font_height
         then d.font_height else bh) := by
  unfold draw_text
  rw [if_pos hfont]
  dsimp only
  obtain ⟨d2, e2, hx⟩ : ∃ a b,
      _add_text (draw_text_boxed (draw_text_styled d color align background encode)
        text (some bx) (some by2) (some bw) (some bh)) text = (a, b) := ⟨_, _, rfl⟩
  obtain ⟨_, _, _, h4, h5⟩ := add_text_state _ _ _ _ hx
  have hsf := styled_font_fields d color align background encode
  have hfw : _get_text_width (draw_text_boxed
        (draw_text_styled d color align background encode)
        text (some bx) (some by2) (some bw) (some bh)) text
      = _get_text_width d text := by
    apply get_text_width_congr
    · simp [draw_text_boxed, hsf.1]
    · simp [draw_text_boxed, hsf.2.1]
  rw [hfw] at h4 h5
  have hbw : (draw_text_boxed (draw_text_styled d color align background encode)
      text (some bx) (some by2) (some bw) (some bh)).dyn_w = bw := by
    simp [draw_text_boxed]
  have hbh : (draw_text_boxed (draw_text_styled d color align background encode)
      text (some bx) (some by2) (some bw) (some bh)).dyn_h = bh := by
    simp [draw_text_boxed]
  have hfh : (draw_text_boxed (draw_text_styled d color align background encode)
      text (some bx) (some by2) (some bw) (some bh)).font_height
      = d.font_height := by
    simp [draw_text_boxed, hsf.2.2]
  rw [hbw, hbh, hfh] at h4 h5
  rw [hx]
  cases e2 <;> simp [h4, h5]

/-- Witness for the amended C3 on the counterexample's concrete call. -/
theorem draw_text_area_sizing_joint_witness :
    dT.font_init = true ∧
    (draw_text dT [65] (some 0) (some 0) (some 1) (some 50) none none none
        true).d.dyn_w = 3 ∧
    (draw_text dT [65] (some 0) (some 0) (some 1) (some 50) none none none
        true).d.dyn_h = 2 :=
  ⟨rfl,
   ((draw_text_area_sizing_joint dT [65] 0 0 1 50 none none none true rfl
      (by decide)).1).trans (by decide),
   ((draw_text_area_sizing_joint dT [65] 0 0 1 50 none none none true rfl
      (by decide)).2).trans (by decide)⟩

/-- Unfolding the head pixel of a full row. -/
lemma specRowFrom_head (fc bg byte k : Nat) (hk : 1 ≤ k) :
    specRowFrom fc bg byte 0 k
      = pixPair fc bg byte 0 ++ specRowFrom fc bg byte 1 (k - 1) := by
  cases k with
  | zero => omega
  | succ k => simp [specRowFrom]

/-- A zero-width glyph produces the empty row-major buffer. -/
lemma rowMajorBuf_zero_width (font : List Nat) (fc bg : Nat) :
    ∀ (rows offset : Nat), rowMajorBuf font fc bg 0 offset rows = [] := by
  intro rows
  induction rows with
  | zero => intro offset; rfl
  | succ rows ih => intro offset; simp [rowMajorBuf, specRowFrom, ih]

/-- Within one glyph row, the `_write_c_to_buf` loop emits the pixels
`j .. c_width - 1` from the current font byte and then continues at the
next byte with the column counter reset. -/
lemma wc_loop_row (font : List Nat) (fc bg c_w : Nat) :
    ∀ (k : Nat), 1 ≤ k → ∀ (j byte offset rest : Nat), 1 ≤ j → j + k = c_w →
      wc_loop font fc bg c_w (k + rest) j (1 <<< j) byte offset
        = specRowFrom fc bg byte j k ++
          wc_loop font fc bg c_w rest 0 (1 <<< c_w) byte (offset + 1) := by
  intro k
  induction k with
  | zero => intro hk; exact absurd hk (by omega)
  | succ k ih =>
    intro _ j byte offset rest hj hjk
    by_cases hk0 : k = 0
    · subst hk0
      have hc : j + 1 = c_w := by omega
      rw [show 1 + rest = rest + 1 from by omega]
      simp only [wc_loop]
      rw [if_neg (by omega : ¬ j = 0), if_neg (by omega : ¬ j = 0), if_pos hc]
      rw [show (1 <<< j) <<< 1 = 1 <<< c_w from by
        rw [← Nat.shiftLeft_add, Nat.add_comm j 1, ← hc, Nat.add_comm 1 j]]
      simp [specRowFrom, pixPair]
    · have hlt : ¬ (j + 1 = c_w) := by omega
      rw [show k + 1 + rest = (k + rest) + 1 from by omega]
      simp only [wc_loop]
      rw [if_neg (by omega : ¬ j = 0), if_neg (by omega : ¬ j = 0), if_neg hlt]
      rw [show (1 <<< j) <<< 1 = 1 <<< (j + 1) from by
        rw [← Nat.shiftLeft_add, Nat.add_comm j 1]]
      rw [ih (by omega) (j + 1) byte offset rest (by omega) (by omega)]
      simp [specRowFrom, pixPair]

/-- The `_write_c_to_buf` loop started at a row boundary unpacks one
font byte per glyph row: its output is exactly the row-major buffer.
The incoming mask and byte are irrelevant because the loop resets both
at the start of every row. -/
lemma wc_loop_rows (font : List Nat) (fc bg c_w : Nat) (hc : 1 ≤ c_w) :
    ∀ (rows offset m b : Nat),
      wc_loop font fc bg c_w (c_w * rows) 0 m b offset
        = rowMajorBuf font fc bg c_w offset rows := by
  intro rows
  induction rows with
  | zero =>
    intro offset m b
    rw [Nat.mul_zero]
    rfl
  | succ rows ih =>
    intro offset m b
    by_cases h1 : c_w = 1
    · subst h1
      rw [show 1 * (rows + 1) = 1 * rows + 1 from by omega]
      simp only [wc_loop, if_true]
      rw [ih (offset + 1) (1 <<< 1) (font.getD offset 0)]
      simp [rowMajorBuf, specRowFrom, pixPair]
    · have h2 : 2 ≤ c_w := by omega
      rw [Nat.mul_succ, show c_w * rows + c_w = ((c_w - 1) + c_w * rows) + 1 from by omega]
      simp only [wc_loop, if_true]
      rw [if_neg (by omega : ¬ 0 + 1 = c_w)]
      rw [show (1 : Nat) <<< 1 = 1 <<< (0 + 1) from by norm_num]
      rw [wc_loop_row font fc bg c_w (c_w - 1) (by omega) (0 + 1)
        (font.getD offset 0) offset (c_w * rows) (by omega) (by omega)]
      rw [ih (offset + 1) (1 <<< c_w) (font.getD offset 0)]
      rw [show rowMajorBuf font fc bg c_w offset (rows + 1)
        = specRowFrom fc bg (font.getD offset 0) 0 c_w ++
          rowMajorBuf font fc bg c_w (offset + 1) rows from rfl]
      rw [specRowFrom_head fc bg (font.getD offset 0) c_w (by omega)]
      simp [pixPair]

/-- Counterexample to claim C8 as stated: on the test font's character
66 ('B', width 2, height 2, bitmap bytes 1, 1) the buffer that
`_write_c_to_buf` produces differs from the column-major unpacking the
claim describes — the code reads one font byte per glyph row
(horizontal bits), not one per column (vertical bits). -/
theorem write_c_not_column_major :
    ((_write_c_to_buf dT 66).1).c_buf
      ≠ specColumnMajorUnpack dT.font dT.font_color dT.background
          (glyph_width dT 66) dT.font_height (glyph_offset dT 66) := by
  decide

/-- Claim C8 (amended): for every in-range character, `_write_c_to_buf`
unpacks the glyph bitmap row-major — one font byte per glyph row, bit j
of the byte at `offset + r` giving the pixel in row r, column j (bit 0
is the top-left pixel) — producing a buffer in which every set bit
yields the 2-byte font color and every clear bit the 2-byte background
color, as captured by `rowMajorBuf`. -/
theorem write_c_row_major (d : Display) (c : Nat)
    (h1 : d.first_char ≤ c) (h2 : c ≤ d.last_char) :
    ((_write_c_to_buf d c).1).c_buf
      = rowMajorBuf d.font d.font_color d.background (glyph_width d c)
          (glyph_offset d c) d.font_height := by
  unfold _write_c_to_buf
  dsimp only
  by_cases hw : glyph_width d c = 0
  · rw [hw, Nat.mul_zero]
    rw [rowMajorBuf_zero_width]
    rfl
  · rw [Nat.mul_comm d.font_height (glyph_width d c)]
    exact wc_loop_rows d.font d.font_color d.background (glyph_width d c)
      (by omega) d.font_height (glyph_offset d c) 0 0

/-- Witness for the amended C8 on the test font's character 66. -/
theorem write_c_row_major_witness :
    dT.first_char ≤ 66 ∧ (66 : Nat) ≤ dT.last_char ∧
    ((_write_c_to_buf dT 66).1).c_buf
      = rowMajorBuf dT.font dT.font_color dT.background (glyph_width dT 66)
          (glyph_offset dT 66) dT.font_height :=
  ⟨by decide, by decide, write_c_row_major dT 66 (by decide) (by decide)⟩
